import Mathlib

/-!
Shallow embedding of the Chad 2030 pipeline-simulator calculation engine
(`src/engine/{types,parameters,capacity,stages,gates,fiscal,aggregation,simulation}.ts`).

JavaScript numbers are modelled as exact rationals (`ℚ`).  `Math.round x` is
`⌊x + 1/2⌋` (JS rounds half toward positive infinity), `Math.ceil` is `⌈·⌉`,
`Math.min`/`Math.max` are `min`/`max`.  Division by zero, which yields
`Infinity` in JS, yields `0` in `ℚ`; every claim below is settled on inputs
where no division by zero occurs in the source.  The human-readable warning
and breach-reason strings of the source are modelled as enumerated tags,
since no claim depends on their text.
-/

namespace Chad2030

/-- JS `Math.round`: round half toward positive infinity. -/
def jsRound (x : ℚ) : ℤ := ⌊x + 1/2⌋

/-- `StatusLevel` from `types.ts`: traffic-light status. -/
inductive StatusLevel
  | GREEN
  | YELLOW
  | RED
  deriving DecidableEq, Repr

/-- `RiskLevel` from `types.ts`. -/
inductive RiskLevel
  | LOW
  | MED
  | HIGH
  deriving DecidableEq, Repr

/-- `OilPriceScenario` from `types.ts`: the five selectable scenarios 50|55|65|67|75. -/
inductive OilPriceScenario
  | p50
  | p55
  | p65
  | p67
  | p75
  deriving DecidableEq, Repr

/-- `Modality` from `types.ts`. -/
inductive Modality
  | GOV_LED
  | PPP
  | FULLY_PRIVATE
  deriving DecidableEq, Repr

/-- `ControlInputs` from `types.ts`. -/
structure ControlInputs where
  advisor : Bool
  advisorMonths : ℚ
  pmuAdd : ℚ
  nChampion : ℚ
  nActive : ℚ
  pctGovLed : ℚ
  pctPPP : ℚ
  pctPrivate : ℚ
  oilPrice : OilPriceScenario
  donorRate : ℚ
  politicalRisk : RiskLevel
  deriving DecidableEq, Repr

/-- `DEFAULT_CONTROLS` from `types.ts`. -/
def defaultControls : ControlInputs :=
  { advisor := false
    advisorMonths := 18
    pmuAdd := 0
    nChampion := 0
    nActive := 50
    pctGovLed := 40
    pctPPP := 40
    pctPrivate := 20
    oilPrice := .p65
    donorRate := 0.7
    politicalRisk := .MED }

/-! ### Parameter table (`parameters.ts`) -/

/-- `SIMULATION_YEARS`. -/
def SIMULATION_YEARS : List ℤ := [2025, 2026, 2027, 2028, 2029, 2030]

/-- `ACTIVE_STAGES`. -/
def ACTIVE_STAGES : List ℕ := [2, 3, 4, 5, 6]

/-- `ACTIVE_GATES`. -/
def ACTIVE_GATES : List ℕ := [2, 3, 4, 5, 6]

/-- `PARAMETERS.init.capexAvg` (USD millions). -/
def CAPEX_AVG : ℚ := 76

/-- `PARAMETERS.stages[s].baseDuration` (months); stages 2-6 are the only keys. -/
def stageBaseDuration : ℕ → ℚ
  | 2 => 4.5
  | 3 => 6.5
  | 4 => 12.0
  | 5 => 8.0
  | 6 => 2.0
  | _ => 0

/-- `PARAMETERS.gates[g].baseRate`. -/
def gateBaseRate : ℕ → ℚ
  | 2 => 0.75
  | 3 => 0.70
  | 4 => 0.75
  | 5 => 0.80
  | 6 => 0.92
  | _ => 0

/-- `PARAMETERS.gates[g].floor`. -/
def gateFloor : ℕ → ℚ
  | 2 => 0.50
  | 3 => 0.45
  | 4 => 0.50
  | 5 => 0.55
  | 6 => 0.75
  | _ => 0

/-- `PARAMETERS.gates[g].ceiling`. -/
def gateCeiling : ℕ → ℚ
  | 2 => 0.95
  | 3 => 0.92
  | 4 => 0.95
  | 5 => 0.95
  | 6 => 0.98
  | _ => 1

/-- `PARAMETERS.modalities[m].durationMultipliers[s]`. -/
def modalityDurationMultiplier : Modality → ℕ → ℚ
  | .GOV_LED, 2 => 1.1
  | .GOV_LED, 3 => 1.23
  | .GOV_LED, 4 => 1.375
  | .GOV_LED, 5 => 1.0625
  | .GOV_LED, 6 => 1.25
  | .PPP, _ => 1.0
  | .FULLY_PRIVATE, 2 => 0.95
  | .FULLY_PRIVATE, 3 => 0.95
  | .FULLY_PRIVATE, 4 => 0.85
  | .FULLY_PRIVATE, 5 => 0.95
  | .FULLY_PRIVATE, 6 => 0.9
  | _, _ => 1

/-- `PARAMETERS.modalities[m].passRateAdjustments[g]`. -/
def modalityPassRateAdjustment : Modality → ℕ → ℚ
  | .GOV_LED, 2 => -0.03
  | .GOV_LED, 3 => -0.05
  | .GOV_LED, 4 => -0.05
  | .GOV_LED, 5 => -0.05
  | .GOV_LED, 6 => -0.04
  | .PPP, 2 => 0.03
  | .PPP, 3 => 0.05
  | .PPP, 4 => 0.05
  | .PPP, 5 => 0.05
  | .PPP, 6 => 0.01
  | .FULLY_PRIVATE, 2 => 0.0
  | .FULLY_PRIVATE, 3 => 0.0
  | .FULLY_PRIVATE, 4 => 0.03
  | .FULLY_PRIVATE, 5 => 0.03
  | .FULLY_PRIVATE, 6 => 0.01
  | _, _ => 0

/-- `PARAMETERS.modalities[m].cofinancingRate`. -/
def cofinancingRate : Modality → ℚ
  | .GOV_LED => 1.0
  | .PPP => 0.3
  | .FULLY_PRIVATE => 0.0

/-- `PARAMETERS.modalities[m].contingentLiabilityRate`. -/
def contingentLiabilityRate : Modality → ℚ
  | .GOV_LED => 0.0
  | .PPP => 0.125
  | .FULLY_PRIVATE => 0.05

/-- `PARAMETERS.advisorDurationMod[s]` (multiplicative). -/
def advisorDurationMod : ℕ → ℚ
  | 2 => 0.667
  | 3 => 0.692
  | 4 => 0.75
  | 5 => 0.813
  | 6 => 0.75
  | _ => 1

/-- `PARAMETERS.advisorLiftMod[g]` (additive). -/
def advisorLiftMod : ℕ → ℚ
  | 2 => 0.1
  | 3 => 0.1
  | 4 => 0.1
  | 5 => 0.08
  | 6 => 0.03
  | _ => 0

/-- `PARAMETERS.pmuMaxDurationReduction[s]`. -/
def pmuMaxDurationReduction : ℕ → ℚ
  | 2 => 0.1
  | 3 => 0.12
  | 4 => 0.15
  | 5 => 0.1
  | 6 => 0.08
  | _ => 0

/-- `PARAMETERS.pmuMaxLiftMod[g]`. -/
def pmuMaxLiftMod : ℕ → ℚ
  | 2 => 0.04
  | 3 => 0.06
  | 4 => 0.08
  | 5 => 0.06
  | 6 => 0.02
  | _ => 0

/-- `PARAMETERS.championDurationReduction`. -/
def championDurationReduction : ℚ := 0.7

/-- `PARAMETERS.championLift`. -/
def championLift : ℚ := 0.1

/-- `PARAMETERS.riskDurationMod[r][s]`. -/
def riskDurationMod : RiskLevel → ℕ → ℚ
  | .LOW, _ => 1.0
  | .MED, 4 => 1.1
  | .MED, _ => 1.05
  | .HIGH, 4 => 1.35
  | .HIGH, _ => 1.15

/-- `PARAMETERS.riskPassPenalty[r][g]`. -/
def riskPassPenalty : RiskLevel → ℕ → ℚ
  | .LOW, _ => 0
  | .MED, 4 => -0.03
  | .MED, _ => -0.02
  | .HIGH, 4 => -0.08
  | .HIGH, _ => -0.05

/-- `PARAMETERS.pmuBase`. -/
def PMU_BASE : ℚ := 10

/-- `PARAMETERS.projectsPerFte`. -/
def PROJECTS_PER_FTE : ℚ := 2.5

/-- `PARAMETERS.stage4Max`. -/
def STAGE4_MAX : ℚ := 13

/-- `MAX_PMU_ADD` from `parameters.ts`. -/
def MAX_PMU_ADD : ℚ := 15

/-- `ADVISOR_FTE_EQUIV` from `parameters.ts`. -/
def ADVISOR_FTE_EQUIV : ℚ := 5

/-- `PARAMETERS.capacityThresholds.green`. -/
def capacityGreen : ℚ := 0.8

/-- `PARAMETERS.capacityThresholds.yellow`. -/
def capacityYellow : ℚ := 1.0

/-- `PARAMETERS.capacityPenalties.durationYellow`. -/
def durationYellow : ℚ := 1.1

/-- `PARAMETERS.capacityPenalties.durationRed`. -/
def durationRed : ℚ := 1.25

/-- `PARAMETERS.capacityPenalties.passYellow`. -/
def passYellow : ℚ := -0.02

/-- `PARAMETERS.capacityPenalties.passRed`. -/
def passRed : ℚ := -0.05

/-- `PARAMETERS.stageCosts[m][s]` (USD thousands). -/
def stageCost : Modality → ℕ → ℚ
  | .GOV_LED, 2 => 15
  | .GOV_LED, 3 => 100
  | .GOV_LED, 4 => 900
  | .GOV_LED, 5 => 35
  | .GOV_LED, 6 => 12
  | .PPP, 2 => 15
  | .PPP, 3 => 60
  | .PPP, 4 => 500
  | .PPP, 5 => 35
  | .PPP, 6 => 12
  | .FULLY_PRIVATE, 2 => 15
  | .FULLY_PRIVATE, 3 => 50
  | .FULLY_PRIVATE, 4 => 490
  | .FULLY_PRIVATE, 5 => 35
  | .FULLY_PRIVATE, 6 => 12
  | _, _ => 0

/-! ### Capacity model (`capacity.ts`) -/

/-- `calculateTotalCapacity`. -/
def calculateTotalCapacity (c : ControlInputs) : ℚ :=
  (PMU_BASE + c.pmuAdd + (if c.advisor then ADVISOR_FTE_EQUIV else 0)) * PROJECTS_PER_FTE

/-- `getEffectiveCapacity`: stage 4 is hard-capped at `stage4Max`. -/
def getEffectiveCapacity (stage : ℕ) (totalCapacity : ℚ) : ℚ :=
  if stage = 4 then min totalCapacity STAGE4_MAX else totalCapacity

/-- `calculateLoadRatio`.  The source returns `Infinity` when the effective
capacity is `0`; over `ℚ` that division yields `0` instead. -/
def calculateLoadRatio (projectsInStage : ℚ) (stage : ℕ) (totalCapacity : ℚ) : ℚ :=
  projectsInStage / getEffectiveCapacity stage totalCapacity

/-- `getCapacityStatus`. -/
def getCapacityStatus (loadRatio : ℚ) : StatusLevel :=
  if loadRatio ≤ capacityGreen then .GREEN
  else if loadRatio ≤ capacityYellow then .YELLOW
  else .RED

/-- `calculatePeakLoadRatio`: maximum load ratio over the five active stages. -/
def calculatePeakLoadRatio (projectsByStage : ℕ → ℚ) (totalCapacity : ℚ) : ℚ :=
  ACTIVE_STAGES.foldl
    (fun peakRatio stage => max peakRatio (calculateLoadRatio (projectsByStage stage) stage totalCapacity))
    0

/-! ### Duration model (`stages.ts`) -/

/-- `StageDurationContext` from `stages.ts`. -/
structure StageDurationContext where
  controls : ControlInputs
  modality : Modality
  hasChampion : Bool
  loadRatio : ℚ

/-- `getCapacityDurationModifier`. -/
def getCapacityDurationModifier (loadRatio : ℚ) : ℚ :=
  if loadRatio ≤ capacityGreen then 1.0
  else if loadRatio ≤ capacityYellow then durationYellow
  else durationRed

/-- `calculateStageDuration`: multiplicative modifier chain, floored at 1 month. -/
def calculateStageDuration (stage : ℕ) (ctx : StageDurationContext) : ℚ :=
  let baseDuration := stageBaseDuration stage
  let modalityMod := modalityDurationMultiplier ctx.modality stage
  let advisorMod := if ctx.controls.advisor then advisorDurationMod stage else 1.0
  let pmuFraction := ctx.controls.pmuAdd / MAX_PMU_ADD
  let pmuMod := 1.0 - pmuFraction * pmuMaxDurationReduction stage
  let championMod := if ctx.hasChampion ∧ stage = 4 then championDurationReduction else 1.0
  let capacityMod := getCapacityDurationModifier ctx.loadRatio
  let riskMod := riskDurationMod ctx.controls.politicalRisk stage
  max 1 (baseDuration * modalityMod * advisorMod * pmuMod * championMod * capacityMod * riskMod)

/-- `calculateTotalDuration`: sum over the active stages 2-6. -/
def calculateTotalDuration (ctx : StageDurationContext) : ℚ :=
  (ACTIVE_STAGES.map (fun stage => calculateStageDuration stage ctx)).sum

/-- `calculateWeightedAverageDuration`: modality-share-weighted total duration,
with `hasChampion := false` (baseline). -/
def calculateWeightedAverageDuration (c : ControlInputs) (loadRatio : ℚ) : ℚ :=
  (c.pctGovLed / 100) * calculateTotalDuration ⟨c, .GOV_LED, false, loadRatio⟩
    + (c.pctPPP / 100) * calculateTotalDuration ⟨c, .PPP, false, loadRatio⟩
    + (c.pctPrivate / 100) * calculateTotalDuration ⟨c, .FULLY_PRIVATE, false, loadRatio⟩

/-! ### Gate pass-rate model (`gates.ts`) -/

/-- `GatePassRateContext` from `gates.ts`. -/
structure GatePassRateContext where
  controls : ControlInputs
  modality : Modality
  hasChampion : Bool
  loadRatio : ℚ

/-- `clamp` from `gates.ts`: `Math.max(min, Math.min(max, value))`. -/
def clamp (value lo hi : ℚ) : ℚ := max lo (min hi value)

/-- `getCapacityPassPenalty`. -/
def getCapacityPassPenalty (loadRatio : ℚ) : ℚ :=
  if loadRatio ≤ capacityGreen then 0
  else if loadRatio ≤ capacityYellow then passYellow
  else passRed

/-- `calculateGatePassRate`: additive lift/penalty chain clamped to `[floor, ceiling]`. -/
def calculateGatePassRate (gate : ℕ) (ctx : GatePassRateContext) : ℚ :=
  let passRate :=
    gateBaseRate gate
      + modalityPassRateAdjustment ctx.modality gate
      + (if ctx.controls.advisor then advisorLiftMod gate else 0)
      + (ctx.controls.pmuAdd / MAX_PMU_ADD) * pmuMaxLiftMod gate
      + (if ctx.hasChampion ∧ gate = 4 then championLift else 0)
      + getCapacityPassPenalty ctx.loadRatio
      + riskPassPenalty ctx.controls.politicalRisk gate
  clamp passRate (gateFloor gate) (gateCeiling gate)

/-- `calculateCumulativePassRate`: product over the active gates 2-6. -/
def calculateCumulativePassRate (ctx : GatePassRateContext) : ℚ :=
  (ACTIVE_GATES.map (fun gate => calculateGatePassRate gate ctx)).prod

/-- `calculateWeightedCumulativePassRate`: modality-share-weighted cumulative
pass rate, with `hasChampion := false` (baseline). -/
def calculateWeightedCumulativePassRate (c : ControlInputs) (loadRatio : ℚ) : ℚ :=
  (c.pctGovLed / 100) * calculateCumulativePassRate ⟨c, .GOV_LED, false, loadRatio⟩
    + (c.pctPPP / 100) * calculateCumulativePassRate ⟨c, .PPP, false, loadRatio⟩
    + (c.pctPrivate / 100) * calculateCumulativePassRate ⟨c, .FULLY_PRIVATE, false, loadRatio⟩

/-! ### Fiscal model (`fiscal.ts`) -/

/-- `PARAMETERS.fiscal.oilProd2025` (bbl/day). -/
def OIL_PROD_2025 : ℚ := 136000

/-- `PARAMETERS.fiscal.oilProdGrowth[y] ?? 0`. -/
def oilProdGrowth : ℤ → ℚ
  | 2025 => -0.007
  | 2026 => 0.12
  | 2027 => 0.12
  | 2028 => 0.12
  | 2029 => 0.12
  | 2030 => 0.12
  | _ => 0

/-- `PARAMETERS.fiscal.govTakeRate`. -/
def GOV_TAKE_RATE : ℚ := 0.55

/-- `PARAMETERS.fiscal.daysPerYear`. -/
def DAYS_PER_YEAR : ℚ := 365

/-- `PARAMETERS.fiscal.oilPrices[scenario]` (USD/bbl; the 67 scenario maps to 66.94). -/
def oilPriceValue : OilPriceScenario → ℚ
  | .p50 => 50
  | .p55 => 55
  | .p65 => 65
  | .p67 => 66.94
  | .p75 => 75

/-- `PARAMETERS.fiscal.nonOilGdp2025` (CFAF billions). -/
def NON_OIL_GDP_2025 : ℚ := 10748

/-- `PARAMETERS.fiscal.nonOilGrowth[y] ?? 0.0375`. -/
def nonOilGrowth : ℤ → ℚ
  | 2025 => 0.042
  | 2026 => 0.035
  | 2027 => 0.0375
  | 2028 => 0.0375
  | 2029 => 0.0375
  | 2030 => 0.0375
  | _ => 0.0375

/-- `PARAMETERS.fiscal.nonOilTaxRate[y] ?? 0.089`. -/
def nonOilTaxRate : ℤ → ℚ
  | 2025 => 0.089
  | 2026 => 0.095
  | 2027 => 0.1
  | 2028 => 0.103
  | 2029 => 0.107
  | 2030 => 0.11
  | _ => 0.089

/-- `PARAMETERS.fiscal.totalGdp2025` (CFAF billions). -/
def TOTAL_GDP_2025 : ℚ := 12250

/-- `PARAMETERS.fiscal.cfafPerUsd`. -/
def CFAF_PER_USD : ℚ := 581

/-- `PARAMETERS.fiscal.maxCofinSafe`. -/
def MAX_COFIN_SAFE : ℚ := 0.35

/-- `PARAMETERS.fiscal.maxDeficit`. -/
def MAX_DEFICIT : ℚ := -0.015

/-- `PARAMETERS.fiscal.maxContingent`. -/
def MAX_CONTINGENT : ℚ := 0.012

/-- `PARAMETERS.fiscal.debtCeiling`. -/
def DEBT_CEILING : ℚ := 0.33

/-- `PARAMETERS.fiscal.debtWarning`. -/
def DEBT_WARNING : ℚ := 0.3

/-- `PARAMETERS.fiscal.nopdTargets[y] ?? -0.05`. -/
def nopdTargets : ℤ → ℚ
  | 2025 => -0.068
  | 2026 => -0.062
  | 2027 => -0.057
  | 2028 => -0.054
  | 2029 => -0.052
  | 2030 => -0.045
  | _ => -0.05

/-- `PARAMETERS.fiscal.donorBaseline[y] ?? 0.018`. -/
def donorBaseline : ℤ → ℚ
  | 2025 => 0.028
  | 2026 => 0.023
  | 2027 => 0.018
  | 2028 => 0.018
  | 2029 => 0.018
  | 2030 => 0.018
  | _ => 0.018

/-- `PARAMETERS.fiscal.wages[y] ?? 0.06`. -/
def wagesShare : ℤ → ℚ
  | 2025 => 0.065
  | 2026 => 0.063
  | 2027 => 0.062
  | 2028 => 0.061
  | 2029 => 0.06
  | 2030 => 0.06
  | _ => 0.06

/-- `PARAMETERS.fiscal.interest`. -/
def INTEREST_SHARE : ℚ := 0.015

/-- `PARAMETERS.fiscal.transfers`. -/
def TRANSFERS_SHARE : ℚ := 0.039

/-- `PARAMETERS.fiscal.socialFloor`. -/
def SOCIAL_FLOOR : ℚ := 0.3

/-- `PARAMETERS.fiscal.contingent2025`. -/
def CONTINGENT_2025 : ℚ := 0.006

/-- `PARAMETERS.fiscal.debtGdp2025`. -/
def DEBT_GDP_2025 : ℚ := 0.28

/-- `PARAMETERS.fiscalThresholds.green`. -/
def fiscalGreen : ℚ := 0.8

/-- `PARAMETERS.fiscalThresholds.yellow`. -/
def fiscalYellow : ℚ := 1.0

/-- `calculateOilProduction`: compounds the 2025 base by the yearly growth
rates for `2025 ≤ y < year` (the source's `for` loop). -/
def calculateOilProduction (year : ℤ) : ℚ :=
  (List.range (year - 2025).toNat).foldl
    (fun production y => production * (1 + oilProdGrowth (2025 + (y : ℤ)))) OIL_PROD_2025

/-- `calculateOilRevenue` (USD millions). -/
def calculateOilRevenue (year : ℤ) (oilPrice : ℚ) : ℚ :=
  calculateOilProduction year * oilPrice * GOV_TAKE_RATE * DAYS_PER_YEAR / 1000000

/-- `calculateNonOilGdp` (CFAF billions). -/
def calculateNonOilGdp (year : ℤ) : ℚ :=
  (List.range (year - 2025).toNat).foldl
    (fun gdp y => gdp * (1 + nonOilGrowth (2025 + (y : ℤ)))) NON_OIL_GDP_2025

/-- `calculateNonOilRevenue` (USD millions). -/
def calculateNonOilRevenue (year : ℤ) : ℚ :=
  calculateNonOilGdp year * nonOilTaxRate year / CFAF_PER_USD * 1000

/-- `calculateDonorGrants` (USD millions). -/
def calculateDonorGrants (year : ℤ) (donorRate : ℚ) : ℚ :=
  calculateNonOilGdp year * donorBaseline year * donorRate / CFAF_PER_USD * 1000

/-- Result record of `calculateAnnualRevenue`. -/
structure RevenueBreakdown where
  total : ℚ
  oil : ℚ
  nonOil : ℚ
  donors : ℚ

/-- `calculateAnnualRevenue` (USD millions). -/
def calculateAnnualRevenue (year : ℤ) (c : ControlInputs) : RevenueBreakdown :=
  let oil := calculateOilRevenue year (oilPriceValue c.oilPrice)
  let nonOil := calculateNonOilRevenue year
  let donors := calculateDonorGrants year c.donorRate
  { total := oil + nonOil + donors, oil := oil, nonOil := nonOil, donors := donors }

/-- `calculateTotalGdp` (USD millions): 2025 GDP compounded by non-oil growth. -/
def calculateTotalGdp (year : ℤ) : ℚ :=
  ((List.range (year - 2025).toNat).foldl
    (fun gdpCfaf y => gdpCfaf * (1 + nonOilGrowth (2025 + (y : ℤ)))) TOTAL_GDP_2025)
    / CFAF_PER_USD * 1000

/-- `calculateCofinancingLimit`: 35% of total revenue. -/
def calculateCofinancingLimit (year : ℤ) (c : ControlInputs) : ℚ :=
  (calculateAnnualRevenue year c).total * MAX_COFIN_SAFE

/-- `calculateFixedObligations` (USD millions). -/
def calculateFixedObligations (year : ℤ) : ℚ :=
  let nonOilGdp := calculateNonOilGdp year
  let wages := wagesShare year * nonOilGdp
  let interest := INTEREST_SHARE * nonOilGdp
  let transfers := TRANSFERS_SHARE * nonOilGdp
  (wages + interest + transfers) / CFAF_PER_USD * 1000

/-- `calculateDeficitLimit`. -/
def calculateDeficitLimit (year : ℤ) (c : ControlInputs) : ℚ :=
  let revenue := (calculateAnnualRevenue year c).total
  let gdp := calculateTotalGdp year
  let fixedObligations := calculateFixedObligations year
  let socialFloor := fixedObligations * SOCIAL_FLOOR
  let deficitAllowance := |MAX_DEFICIT| * gdp
  revenue + deficitAllowance - fixedObligations - socialFloor

/-- `calculateContingentLimit`. -/
def calculateContingentLimit (year : ℤ) : ℚ :=
  let gdp := calculateTotalGdp year
  MAX_CONTINGENT * gdp - CONTINGENT_2025 * gdp

/-- `calculateDebtHeadroom`. -/
def calculateDebtHeadroom (year : ℤ) : ℚ :=
  let gdp := calculateTotalGdp year
  DEBT_CEILING * gdp - DEBT_GDP_2025 * gdp

/-- `calculateFiscalSpace`: `Math.min` of the four constraints. -/
def calculateFiscalSpace (year : ℤ) (c : ControlInputs) : ℚ :=
  min (min (min (calculateCofinancingLimit year c) (calculateDeficitLimit year c))
        (calculateContingentLimit year))
    (calculateDebtHeadroom year)

/-- `calculateCofinancingDemand`. -/
def calculateCofinancingDemand (capexUsdM : ℚ) (modality : Modality) : ℚ :=
  capexUsdM * cofinancingRate modality

/-- `calculateContingentLiability`. -/
def calculateContingentLiability (capexUsdM : ℚ) (modality : Modality) : ℚ :=
  capexUsdM * contingentLiabilityRate modality

/-- `calculateDebtRatio` (the source's `newBorrowing` defaults to 0; callers
always use the default, which is passed explicitly here). -/
def calculateDebtRatio (year : ℤ) (newBorrowing : ℚ) : ℚ :=
  (DEBT_GDP_2025 * calculateTotalGdp 2025 + newBorrowing) / calculateTotalGdp year

/-- `getFiscalStatus`: flow status from `cofinDemand / fiscalSpace`. -/
def getFiscalStatus (cofinDemand fiscalSpace : ℚ) : StatusLevel :=
  if fiscalSpace ≤ 0 then .RED
  else
    let ratio := cofinDemand / fiscalSpace
    if ratio ≤ fiscalGreen then .GREEN
    else if ratio ≤ fiscalYellow then .YELLOW
    else .RED

/-- `getDebtStatus`. -/
def getDebtStatus (debtRatio : ℚ) : StatusLevel :=
  if DEBT_CEILING ≤ debtRatio then .RED
  else if DEBT_WARNING ≤ debtRatio then .YELLOW
  else .GREEN

/-- `statusOrder.indexOf` from `getCombinedFiscalStatus`. -/
def statusRank : StatusLevel → ℕ
  | .GREEN => 0
  | .YELLOW => 1
  | .RED => 2

/-- Inverse of `statusRank` on `{0,1,2}` (`statusOrder[i]`). -/
def statusOfRank : ℕ → StatusLevel
  | 0 => .GREEN
  | 1 => .YELLOW
  | _ => .RED

/-- `getCombinedFiscalStatus`: worse of flow and debt status (max of indices). -/
def getCombinedFiscalStatus (flowStatus debtStatus : StatusLevel) : StatusLevel :=
  statusOfRank (max (statusRank flowStatus) (statusRank debtStatus))

/-- `AnnualFiscalData` from `types.ts`. -/
structure AnnualFiscalData where
  year : ℤ
  revenue : ℚ
  oilRevenue : ℚ
  nonOilRevenue : ℚ
  donorGrants : ℚ
  fiscalSpace : ℚ
  cofinancingDemand : ℚ
  debtRatio : ℚ
  nopdActual : ℚ
  nopdTarget : ℚ
  fiscalStatus : StatusLevel

/-- `generateFiscalProjection`: one record per simulation year. -/
def generateFiscalProjection (c : ControlInputs) (cofinByYear : ℤ → ℚ) : List AnnualFiscalData :=
  SIMULATION_YEARS.map fun year =>
    let revenue := calculateAnnualRevenue year c
    let fiscalSpace := calculateFiscalSpace year c
    let cofinDemand := cofinByYear year
    let debtRatio := calculateDebtRatio year 0
    let nopdTarget := nopdTargets year
    let nonOilGdpUsd := calculateNonOilGdp year / CFAF_PER_USD * 1000
    let nonOilSpending := calculateFixedObligations year + cofinDemand
    let nopdActual := (nonOilSpending - revenue.nonOil) / nonOilGdpUsd
    let flowStatus := getFiscalStatus cofinDemand fiscalSpace
    let debtStatus := getDebtStatus debtRatio
    { year := year
      revenue := revenue.total
      oilRevenue := revenue.oil
      nonOilRevenue := revenue.nonOil
      donorGrants := revenue.donors
      fiscalSpace := fiscalSpace
      cofinancingDemand := cofinDemand
      debtRatio := debtRatio
      nopdActual := nopdActual
      nopdTarget := nopdTarget
      fiscalStatus := getCombinedFiscalStatus flowStatus debtStatus }

/-- Reason tags for `findBreachYear` (the source joins human-readable strings;
only the set of reasons is modelled). -/
inductive BreachTag
  | cofinancingExceedsFiscalSpace
  | debtCeilingBreached
  | fiscalLimitExceeded
  deriving DecidableEq, Repr

/-- `findBreachYear`: first RED year with its reasons. -/
def findBreachYear (fiscalProjection : List AnnualFiscalData) :
    Option ℤ × Option (List BreachTag) :=
  match fiscalProjection.find? (fun data => decide (data.fiscalStatus = .RED)) with
  | none => (none, none)
  | some data =>
    let reasons :=
      (if data.fiscalSpace < data.cofinancingDemand then
        [BreachTag.cofinancingExceedsFiscalSpace] else [])
        ++ (if DEBT_CEILING ≤ data.debtRatio then [BreachTag.debtCeilingBreached] else [])
    (some data.year, some (if reasons = [] then [BreachTag.fiscalLimitExceeded] else reasons))

/-! ### Aggregation layer (`aggregation.ts`) -/

/-- Pointwise update of a year-indexed record (`result[year] = v`). -/
def update (f : ℤ → ℚ) (year : ℤ) (v : ℚ) : ℤ → ℚ :=
  fun y => if y = year then v else f y

/-- `Math.ceil(startYear + avgDurationMonths / 12)` from `distributeFidsAcrossYears`. -/
def firstFidYear (avgDurationMonths : ℚ) (startYear : ℤ) : ℤ :=
  ⌈(startYear : ℚ) + avgDurationMonths / 12⌉

/-- Total of the ramp-up weights `1, 2, ..., n` (`weights.reduce` in the source). -/
def rampWeightTotal (n : ℕ) : ℚ :=
  ((List.range n).map fun i => ((i : ℚ) + 1)).sum

/-- `Math.round((weight / totalWeight) * totalFids)` for the year at index `i`
of the remaining years (weight `i + 1`). -/
def rampShare (totalFids : ℚ) (n i : ℕ) : ℚ :=
  (jsRound ((((i : ℚ) + 1) / rampWeightTotal n) * totalFids) : ℚ)

/-- The loop's `allocated` accumulator: sum of all rounded shares. -/
def rampAllocated (totalFids : ℚ) (n : ℕ) : ℚ :=
  ((List.range n).map fun i => rampShare totalFids n i).sum

/-- `distributeFidsAcrossYears` (the source's `startYear` defaults to 2025;
callers rely on the default, which is passed explicitly here).  All simulation
years start at 0; if no simulation year reaches `firstFidYear`, all FIDs land
in 2030; otherwise each remaining year gets its rounded ramp share and the
last remaining year absorbs the rounding residual.  Years outside the record
read as 0 (the callers' `?? 0`). -/
def distributeFidsAcrossYears (totalFids avgDurationMonths : ℚ) (startYear : ℤ) : ℤ → ℚ :=
  let remainingYears := SIMULATION_YEARS.filter fun y => firstFidYear avgDurationMonths startYear ≤ y
  let base : ℤ → ℚ := fun _ => 0
  if remainingYears.isEmpty then update base 2030 totalFids
  else
    let n := remainingYears.length
    let afterAlloc :=
      (remainingYears.zip (List.range n)).foldl
        (fun acc p => update acc p.1 (rampShare totalFids n p.2)) base
    match remainingYears.getLast? with
    | none => afterAlloc
    | some lastYear =>
      update afterAlloc lastYear (afterAlloc lastYear + (totalFids - rampAllocated totalFids n))

/-- `distributeFidsByModality`: rounded gov-led and PPP shares, remainder
(floored at 0) to fully-private. -/
def distributeFidsByModality (totalFids : ℚ) (c : ControlInputs) : Modality → ℚ :=
  let govLed : ℚ := (jsRound (totalFids * (c.pctGovLed / 100)) : ℚ)
  let ppp : ℚ := (jsRound (totalFids * (c.pctPPP / 100)) : ℚ)
  let fullyPrivate := totalFids - govLed - ppp
  fun m =>
    match m with
    | .GOV_LED => govLed
    | .PPP => ppp
    | .FULLY_PRIVATE => max 0 fullyPrivate

/-- `InvestmentBreakdown` from `aggregation.ts` (the source field `private`
is a reserved word in Lean and is named `privateCapital` here). -/
structure InvestmentBreakdown where
  total : ℚ
  privateCapital : ℚ
  govCofinancing : ℚ
  byModality : Modality → ℚ
  contingentLiabilities : ℚ

/-- `calculateInvestmentMobilized`. -/
def calculateInvestmentMobilized (fids : ℚ) (c : ControlInputs) : InvestmentBreakdown :=
  let totalInvestment := fids * CAPEX_AVG
  let fidsByModality := distributeFidsByModality fids c
  let investmentByModality : Modality → ℚ := fun m => fidsByModality m * CAPEX_AVG
  let govCofinancing :=
    calculateCofinancingDemand (investmentByModality .GOV_LED) .GOV_LED
      + calculateCofinancingDemand (investmentByModality .PPP) .PPP
      + calculateCofinancingDemand (investmentByModality .FULLY_PRIVATE) .FULLY_PRIVATE
  let contingentLiabilities :=
    calculateContingentLiability (investmentByModality .GOV_LED) .GOV_LED
      + calculateContingentLiability (investmentByModality .PPP) .PPP
      + calculateContingentLiability (investmentByModality .FULLY_PRIVATE) .FULLY_PRIVATE
  { total := totalInvestment
    privateCapital := totalInvestment - govCofinancing
    govCofinancing := govCofinancing
    byModality := investmentByModality
    contingentLiabilities := contingentLiabilities }

/-- `distributeCofinancingByYear`: per-year co-financing from per-year FIDs
(the record holds the six simulation years; other years read as 0). -/
def distributeCofinancingByYear (fidsByYear : ℤ → ℚ) (c : ControlInputs) : ℤ → ℚ :=
  fun year =>
    if year ∈ SIMULATION_YEARS then
      if 0 < fidsByYear year then (calculateInvestmentMobilized (fidsByYear year) c).govCofinancing
      else 0
    else 0

/-- `DropStatistics` from `aggregation.ts`. -/
structure DropStatistics where
  total : ℚ
  byGate : ℕ → ℚ

/-- `calculateDropsByGate`: sequential attrition over gates 2-6, with the
drop count rounded at each gate (the source's loop, unrolled over the fixed
`ACTIVE_GATES = [2,3,4,5,6]`). -/
def calculateDropsByGate (nActive : ℚ) (gatePassRates : ℕ → ℚ) : DropStatistics :=
  let s2 := nActive
  let d2 : ℚ := (jsRound (s2 - s2 * gatePassRates 2) : ℚ)
  let s3 := s2 * gatePassRates 2
  let d3 : ℚ := (jsRound (s3 - s3 * gatePassRates 3) : ℚ)
  let s4 := s3 * gatePassRates 3
  let d4 : ℚ := (jsRound (s4 - s4 * gatePassRates 4) : ℚ)
  let s5 := s4 * gatePassRates 4
  let d5 : ℚ := (jsRound (s5 - s5 * gatePassRates 5) : ℚ)
  let s6 := s5 * gatePassRates 5
  let d6 : ℚ := (jsRound (s6 - s6 * gatePassRates 6) : ℚ)
  { total := d2 + d3 + d4 + d5 + d6
    byGate := fun g =>
      if g = 2 then d2 else if g = 3 then d3 else if g = 4 then d4
      else if g = 5 then d5 else if g = 6 then d6 else 0 }

/-- `PreparationCostBreakdown` from `aggregation.ts`. -/
structure PreparationCostBreakdown where
  total : ℚ
  byModality : Modality → ℚ
  fidProjects : ℚ
  droppedProjects : ℚ

/-- `calculatePreparationCost`: full stage costs for FID projects, a flat
`2.5 stages × 100k` heuristic for dropped projects. -/
def calculatePreparationCost (fids : ℚ) (drops : DropStatistics) (c : ControlInputs) :
    PreparationCostBreakdown :=
  let fidsByModality := distributeFidsByModality fids c
  let costByModality : Modality → ℚ := fun m =>
    fidsByModality m * (ACTIVE_STAGES.map (stageCost m)).sum / 1000
  let droppedCost := drops.total * 2.5 * 100 / 1000
  let fidCost := costByModality .GOV_LED + costByModality .PPP + costByModality .FULLY_PRIVATE
  { total := fidCost + droppedCost
    byModality := costByModality
    fidProjects := fids
    droppedProjects := drops.total }

/-- `AnnualPipelineData` from `types.ts`. -/
structure AnnualPipelineData where
  year : ℤ
  fids : ℚ
  cumulativeFids : ℚ
  dropped : ℚ
  inFlight : ℚ
  investmentMobilized : ℚ
  privateCapital : ℚ
  govCofinancing : ℚ

/-- Body of the year loop of `generatePipelineData`, carrying the running
cumulative FID and drop counts. -/
def pipelineRows (c : ControlInputs) (fidsByYear : ℤ → ℚ) (dropRate nActive : ℚ) :
    List ℤ → ℚ → ℚ → List AnnualPipelineData
  | [], _, _ => []
  | year :: rest, cumulativeFids, cumulativeDrops =>
    let fidsThisYear := fidsByYear year
    let cumulativeFids' := cumulativeFids + fidsThisYear
    let dropsThisYear : ℚ := (jsRound (fidsThisYear * dropRate) : ℚ)
    let cumulativeDrops' := cumulativeDrops + dropsThisYear
    let inFlight := max 0 (nActive - cumulativeFids' - cumulativeDrops')
    let investment := calculateInvestmentMobilized fidsThisYear c
    { year := year
      fids := fidsThisYear
      cumulativeFids := cumulativeFids'
      dropped := dropsThisYear
      inFlight := inFlight
      investmentMobilized := investment.total
      privateCapital := investment.privateCapital
      govCofinancing := investment.govCofinancing }
      :: pipelineRows c fidsByYear dropRate nActive rest cumulativeFids' cumulativeDrops'

/-- `generatePipelineData`.  The source's `totalDrops / totalFids || 0` yields
`Infinity` in JS when `totalFids = 0 ≠ totalDrops`; over `ℚ` that division
yields `0`. -/
def generatePipelineData (totalFids totalDrops nActive avgDuration : ℚ) (c : ControlInputs) :
    List AnnualPipelineData :=
  let fidsByYear := distributeFidsAcrossYears totalFids avgDuration 2025
  let dropRate := totalDrops / totalFids
  pipelineRows c fidsByYear dropRate nActive SIMULATION_YEARS 0 0

/-! ### Simulation orchestrator (`simulation.ts`) -/

/-- `calculateChampionedPassRate`: cumulative pass rate with modality fixed
to PPP and `hasChampion := true`. -/
def calculateChampionedPassRate (c : ControlInputs) (loadRatio : ℚ) : ℚ :=
  (ACTIVE_GATES.map (fun gate => calculateGatePassRate gate ⟨c, .PPP, true, loadRatio⟩)).prod

/-- `calculateAverageGatePassRates`: per-gate modality-share-weighted pass
rate (baseline, non-championed); gates outside the record read as 0. -/
def calculateAverageGatePassRates (c : ControlInputs) (loadRatio : ℚ) : ℕ → ℚ :=
  fun gate =>
    if gate ∈ ACTIVE_GATES then
      (c.pctGovLed / 100) * calculateGatePassRate gate ⟨c, .GOV_LED, false, loadRatio⟩
        + (c.pctPPP / 100) * calculateGatePassRate gate ⟨c, .PPP, false, loadRatio⟩
        + (c.pctPrivate / 100) * calculateGatePassRate gate ⟨c, .FULLY_PRIVATE, false, loadRatio⟩
    else 0

/-- `estimateProjectsByStage`: stage populations proportional to base stage
duration share; stages outside the record read as 0. -/
def estimateProjectsByStage (nActive totalDuration : ℚ) : ℕ → ℚ :=
  fun stage =>
    if stage ∈ ACTIVE_STAGES then
      (jsRound (stageBaseDuration stage / totalDuration * nActive) : ℚ)
    else 0

/-- `determineOverallFiscalStatus`: RED if any year is RED, else YELLOW if
any year is YELLOW, else GREEN (the source's two scans). -/
def determineOverallFiscalStatus (fiscalProjection : List AnnualFiscalData) : StatusLevel :=
  if fiscalProjection.any (fun year => decide (year.fiscalStatus = .RED)) then .RED
  else if fiscalProjection.any (fun year => decide (year.fiscalStatus = .YELLOW)) then .YELLOW
  else .GREEN

/-- Warning tags for `validateBounds` (the source builds interpolated strings;
only which warnings fire is modelled). -/
inductive BoundsWarning
  | baselineFidsOutOfRange
  | advisorFidsOutOfRange
  | optimizedFidsOutOfRange
  | baselineTimeOutOfRange
  | optimizedTimeOutOfRange
  | investmentExceedsCap
  deriving DecidableEq, Repr

/-- Result of `validateBounds`. -/
structure BoundsValidation where
  isValid : Bool
  warning : Option (List BoundsWarning)

/-- `validateBounds`: non-fatal check of FIDs/time/investment against the
expected bounds of `PARAMETERS.bounds` for the matched scenario archetype. -/
def validateBounds (fids avgTime : ℚ) (c : ControlInputs) : BoundsValidation :=
  let isBaseline := !c.advisor && decide (c.pmuAdd = 0)
  let isAdvisorOnly := c.advisor && decide (c.pmuAdd = 0)
  let isOptimized := c.advisor && decide (10 ≤ c.pmuAdd) && decide (10 ≤ c.nChampion)
  let fidWarnings : List BoundsWarning :=
    if isBaseline then
      if fids < 85 ∨ 95 < fids then [.baselineFidsOutOfRange] else []
    else if isAdvisorOnly then
      if fids < 130 ∨ 140 < fids then [.advisorFidsOutOfRange] else []
    else if isOptimized then
      if fids < 160 ∨ 180 < fids then [.optimizedFidsOutOfRange] else []
    else []
  let timeWarnings : List BoundsWarning :=
    if isBaseline then
      if avgTime < 28 ∨ 40 < avgTime then [.baselineTimeOutOfRange] else []
    else if isOptimized then
      if avgTime < 18 ∨ 28 < avgTime then [.optimizedTimeOutOfRange] else []
    else []
  let investment := fids * CAPEX_AVG
  let invWarnings : List BoundsWarning :=
    if 20500 < investment then [.investmentExceedsCap] else []
  let warnings := fidWarnings ++ timeWarnings ++ invWarnings
  { isValid := warnings.isEmpty, warning := if warnings.isEmpty then none else some warnings }

/-- `SimulationOutputs` from `types.ts`. -/
structure SimulationOutputs where
  nFid : ℚ
  investmentTotal : ℚ
  investmentPrivate : ℚ
  cofinancingTotal : ℚ
  fiscalStatus : StatusLevel
  nDropped : ℚ
  avgTimeToFid : ℚ
  prepCost : ℚ
  fiscalByYear : List AnnualFiscalData
  pipelineByYear : List AnnualPipelineData
  dropsByGate : ℕ → ℚ
  investmentByModality : Modality → ℚ
  capacityStatus : StatusLevel
  peakLoadRatio : ℚ
  breachYear : Option ℤ
  breachReason : Option (List BreachTag)
  isWithinBounds : Bool
  boundsWarning : Option (List BoundsWarning)

/-- `SimulationResult` from `types.ts` (`executionTimeMs`, a wall-clock
measurement, is not modelled; `projectStates` is always empty in the
cohort-based mode and is given the unit element type). -/
structure SimulationResult where
  outputs : SimulationOutputs
  projectStates : List Unit

/-- Step 2 of `runSimulation`: capped steady-state load ratio estimate. -/
def estimatedLoadRatio (c : ControlInputs) : ℚ :=
  min (c.nActive / calculateTotalCapacity c) 1.2

/-- Step 3 of `runSimulation`: `avgDuration`. -/
def simAvgDuration (c : ControlInputs) : ℚ :=
  calculateWeightedAverageDuration c (estimatedLoadRatio c)

/-- Steps 5-6 of `runSimulation`: expected FIDs
`round(nChampion × championedRate + (nActive − nChampion) × normalRate)`. -/
def simTotalFids (c : ControlInputs) : ℚ :=
  (jsRound (c.nChampion * calculateChampionedPassRate c (estimatedLoadRatio c)
      + (c.nActive - c.nChampion) * calculateWeightedCumulativePassRate c (estimatedLoadRatio c)) : ℚ)

/-- Step 6 of `runSimulation`: `fidsByYear`. -/
def simFidsByYear (c : ControlInputs) : ℤ → ℚ :=
  distributeFidsAcrossYears (simTotalFids c) (simAvgDuration c) 2025

/-- Step 8 of `runSimulation`: drops by gate from the average gate pass rates. -/
def simDrops (c : ControlInputs) : DropStatistics :=
  calculateDropsByGate c.nActive (calculateAverageGatePassRates c (estimatedLoadRatio c))

/-- Step 9 of `runSimulation`: co-financing demand by year. -/
def simCofinByYear (c : ControlInputs) : ℤ → ℚ :=
  distributeCofinancingByYear (simFidsByYear c) c

/-- Step 10 of `runSimulation`: the fiscal projection. -/
def simFiscalProjection (c : ControlInputs) : List AnnualFiscalData :=
  generateFiscalProjection c (simCofinByYear c)

/-- `runSimulation` from `simulation.ts`: the single deterministic pass
assembling the complete output bundle. -/
def runSimulation (c : ControlInputs) : SimulationResult :=
  let totalCapacity := calculateTotalCapacity c
  let avgDuration := simAvgDuration c
  let totalFids := simTotalFids c
  let investment := calculateInvestmentMobilized totalFids c
  let drops := simDrops c
  let fiscalProjection := simFiscalProjection c
  let breach := findBreachYear fiscalProjection
  let projectsByStage := estimateProjectsByStage c.nActive avgDuration
  let peakLoadRatio := calculatePeakLoadRatio projectsByStage totalCapacity
  let prepCost := calculatePreparationCost totalFids drops c
  let boundsValidation := validateBounds totalFids avgDuration c
  { outputs :=
      { nFid := totalFids
        investmentTotal := investment.total
        investmentPrivate := investment.privateCapital
        cofinancingTotal := investment.govCofinancing
        fiscalStatus := determineOverallFiscalStatus fiscalProjection
        nDropped := drops.total
        avgTimeToFid := avgDuration
        prepCost := prepCost.total
        fiscalByYear := fiscalProjection
        pipelineByYear := generatePipelineData totalFids drops.total c.nActive avgDuration c
        dropsByGate := drops.byGate
        investmentByModality := investment.byModality
        capacityStatus := getCapacityStatus peakLoadRatio
        peakLoadRatio := peakLoadRatio
        breachYear := breach.1
        breachReason := breach.2
        isWithinBounds := boundsValidation.isValid
        boundsWarning := boundsValidation.warning }
    projectStates := [] }

/-! ### Claim-side notions: the GREEN < YELLOW < RED order and worst status -/

/-- Ordinal comparison of statuses in the order GREEN < YELLOW < RED. -/
def statusLe (a b : StatusLevel) : Prop := statusRank a ≤ statusRank b

instance : DecidableRel statusLe :=
  fun a b => inferInstanceAs (Decidable (statusRank a ≤ statusRank b))

instance : Fintype StatusLevel :=
  ⟨⟨{.GREEN, .YELLOW, .RED}, by decide⟩, by intro x; cases x <;> decide⟩

/-- Maximum of two statuses in the order GREEN < YELLOW < RED. -/
def statusMax (a b : StatusLevel) : StatusLevel :=
  if statusRank a ≤ statusRank b then b else a

/-- Worst (maximum) status of a list, GREEN when empty. -/
def worstStatus (l : List StatusLevel) : StatusLevel := l.foldr statusMax .GREEN

/-- A modality split that sums to 100 but has a negative component, used to
refute the original form of claim C9. -/
def extremeSplitControls : ControlInputs :=
  { advisor := true, advisorMonths := 18, pmuAdd := 15, nChampion := 0, nActive := 50,
    pctGovLed := -9900, pctPPP := 10000, pctPrivate := 0, oilPrice := .p65,
    donorRate := 0.7, politicalRisk := .LOW }

/-! ### Theorems -/

/-- The year distribution is conservative: over the six simulation years it sums to `totalFids` exactly, for every duration. -/
theorem sum_distributeFidsAcrossYears (T d : ℚ) :
    ((SIMULATION_YEARS.map (distributeFidsAcrossYears T d 2025)).sum) = T := by
  unfold distributeFidsAcrossYears
  rcases le_or_lt (firstFidYear d 2025) 2025 with h | h1
  · have hrem : SIMULATION_YEARS.filter (fun y => decide (firstFidYear d 2025 ≤ y))
        = [2025, 2026, 2027, 2028, 2029, 2030] := by
      simp only [SIMULATION_YEARS, List.filter_cons, List.filter_nil, decide_eq_true_eq]
      simp [h, show firstFidYear d 2025 ≤ 2026 by omega, show firstFidYear d 2025 ≤ 2027 by omega,
        show firstFidYear d 2025 ≤ 2028 by omega, show firstFidYear d 2025 ≤ 2029 by omega,
        show firstFidYear d 2025 ≤ 2030 by omega]
    rw [hrem]
    simp only [SIMULATION_YEARS, List.isEmpty, List.length, List.zip, List.zipWith, List.foldl,
      List.getLast?, List.map, List.sum_cons, List.sum_nil, rampAllocated,
      show List.range 6 = [0,1,2,3,4,5] by decide]
    norm_num [update]
    ring
  · rcases le_or_lt (firstFidYear d 2025) 2026 with h | h2
    · have hrem : SIMULATION_YEARS.filter (fun y => decide (firstFidYear d 2025 ≤ y))
          = [2026, 2027, 2028, 2029, 2030] := by
        simp only [SIMULATION_YEARS, List.filter_cons, List.filter_nil, decide_eq_true_eq]
        simp [show ¬ firstFidYear d 2025 ≤ 2025 by omega, h,
          show firstFidYear d 2025 ≤ 2027 by omega, show firstFidYear d 2025 ≤ 2028 by omega,
          show firstFidYear d 2025 ≤ 2029 by omega, show firstFidYear d 2025 ≤ 2030 by omega]
      rw [hrem]
      simp only [SIMULATION_YEARS, List.isEmpty, List.length, List.zip, List.zipWith, List.foldl,
        List.getLast?, List.map, List.sum_cons, List.sum_nil, rampAllocated,
        show List.range 5 = [0,1,2,3,4] by decide]
      norm_num [update]
      ring
    · rcases le_or_lt (firstFidYear d 2025) 2027 with h | h3
      · have hrem : SIMULATION_YEARS.filter (fun y => decide (firstFidYear d 2025 ≤ y))
            = [2027, 2028, 2029, 2030] := by
          simp only [SIMULATION_YEARS, List.filter_cons, List.filter_nil, decide_eq_true_eq]
          simp [show ¬ firstFidYear d 2025 ≤ 2025 by omega, show ¬ firstFidYear d 2025 ≤ 2026 by omega,
            h, show firstFidYear d 2025 ≤ 2028 by omega, show firstFidYear d 2025 ≤ 2029 by omega,
            show firstFidYear d 2025 ≤ 2030 by omega]
        rw [hrem]
        simp only [SIMULATION_YEARS, List.isEmpty, List.length, List.zip, List.zipWith, List.foldl,
          List.getLast?, List.map, List.sum_cons, List.sum_nil, rampAllocated,
          show List.range 4 = [0,1,2,3] by decide]
        norm_num [update]
        ring
      · rcases le_or_lt (firstFidYear d 2025) 2028 with h | h4
        · have hrem : SIMULATION_YEARS.filter (fun y => decide (firstFidYear d 2025 ≤ y))
              = [2028, 2029, 2030] := by
            simp only [SIMULATION_YEARS, List.filter_cons, List.filter_nil, decide_eq_true_eq]
            simp [show ¬ firstFidYear d 2025 ≤ 2025 by omega, show ¬ firstFidYear d 2025 ≤ 2026 by omega,
              show ¬ firstFidYear d 2025 ≤ 2027 by omega, h,
              show firstFidYear d 2025 ≤ 2029 by omega, show firstFidYear d 2025 ≤ 2030 by omega]
          rw [hrem]
          simp only [SIMULATION_YEARS, List.isEmpty, List.length, List.zip, List.zipWith, List.foldl,
            List.getLast?, List.map, List.sum_cons, List.sum_nil, rampAllocated,
            show List.range 3 = [0,1,2] by decide]
          norm_num [update]
          ring
        · rcases le_or_lt (firstFidYear d 2025) 2029 with h | h5
          · have hrem : SIMULATION_YEARS.filter (fun y => decide (firstFidYear d 2025 ≤ y))
                = [2029, 2030] := by
              simp only [SIMULATION_YEARS, List.filter_cons, List.filter_nil, decide_eq_true_eq]
              simp [show ¬ firstFidYear d 2025 ≤ 2025 by omega, show ¬ firstFidYear d 2025 ≤ 2026 by omega,
                show ¬ firstFidYear d 2025 ≤ 2027 by omega, show ¬ firstFidYear d 2025 ≤ 2028 by omega,
                h, show firstFidYear d 2025 ≤ 2030 by omega]
            rw [hrem]
            simp only [SIMULATION_YEARS, List.isEmpty, List.length, List.zip, List.zipWith, List.foldl,
              List.getLast?, List.map, List.sum_cons, List.sum_nil, rampAllocated,
              show List.range 2 = [0,1] by decide]
            norm_num [update]
            ring
          · rcases le_or_lt (firstFidYear d 2025) 2030 with h | h6
            · have hrem : SIMULATION_YEARS.filter (fun y => decide (firstFidYear d 2025 ≤ y))
                  = [2030] := by
                simp only [SIMULATION_YEARS, List.filter_cons, List.filter_nil, decide_eq_true_eq]
                simp [show ¬ firstFidYear d 2025 ≤ 2025 by omega, show ¬ firstFidYear d 2025 ≤ 2026 by omega,
                  show ¬ firstFidYear d 2025 ≤ 2027 by omega, show ¬ firstFidYear d 2025 ≤ 2028 by omega,
                  show ¬ firstFidYear d 2025 ≤ 2029 by omega, h]
              rw [hrem]
              simp only [SIMULATION_YEARS, List.isEmpty, List.length, List.zip, List.zipWith, List.foldl,
                List.getLast?, List.map, List.sum_cons, List.sum_nil, rampAllocated,
                show List.range 1 = [0] by decide]
              norm_num [update]
            · have hrem : SIMULATION_YEARS.filter (fun y => decide (firstFidYear d 2025 ≤ y))
                  = [] := by
                simp only [SIMULATION_YEARS, List.filter_cons, List.filter_nil, decide_eq_true_eq]
                simp [show ¬ firstFidYear d 2025 ≤ 2025 by omega, show ¬ firstFidYear d 2025 ≤ 2026 by omega,
                  show ¬ firstFidYear d 2025 ≤ 2027 by omega, show ¬ firstFidYear d 2025 ≤ 2028 by omega,
                  show ¬ firstFidYear d 2025 ≤ 2029 by omega, show ¬ firstFidYear d 2025 ≤ 2030 by omega]
              rw [hrem]
              simp only [SIMULATION_YEARS, List.isEmpty, List.map, List.sum_cons, List.sum_nil]
              norm_num [update]

/-- The `fids` column of the pipeline table is the year distribution itself. -/
theorem pipelineRows_map_fids (c : ControlInputs) (f : ℤ → ℚ) (dropRate nA : ℚ) :
    ∀ (ys : List ℤ) (cumF cumD : ℚ),
      (pipelineRows c f dropRate nA ys cumF cumD).map (fun r => r.fids) = ys.map f := by
  intro ys
  induction ys with
  | nil => intro cumF cumD; rfl
  | cons y rest ih => intro cumF cumD; simp [pipelineRows, ih]

/-- The pipeline table has one row per year of the input list. -/
theorem pipelineRows_length (c : ControlInputs) (f : ℤ → ℚ) (dropRate nA : ℚ) :
    ∀ (ys : List ℤ) (cumF cumD : ℚ),
      (pipelineRows c f dropRate nA ys cumF cumD).length = ys.length := by
  intro ys
  induction ys with
  | nil => intro cumF cumD; rfl
  | cons y rest ih => intro cumF cumD; simp [pipelineRows, ih]

/-- With a 72-month average duration the first FID year is 2031, past the simulation horizon. -/
theorem firstFidYear_72 : firstFidYear 72 2025 = 2031 := by
  unfold firstFidYear
  norm_num

/-- `determineOverallFiscalStatus` distributes over cons as the status maximum. -/
theorem determineOverall_cons (d : AnnualFiscalData) (rest : List AnnualFiscalData) :
    determineOverallFiscalStatus (d :: rest)
      = statusMax d.fiscalStatus (determineOverallFiscalStatus rest) := by
  unfold determineOverallFiscalStatus statusMax statusRank
  cases hs : d.fiscalStatus <;>
    cases hR : rest.any (fun y => decide (y.fiscalStatus = .RED)) <;>
      cases hY : rest.any (fun y => decide (y.fiscalStatus = .YELLOW)) <;>
        simp [List.any_cons, hs, hR, hY]

/-- `determineOverallFiscalStatus` computes the worst status of the projection. -/
theorem determineOverall_eq_worst (proj : List AnnualFiscalData) :
    determineOverallFiscalStatus proj = worstStatus (proj.map (fun r => r.fiscalStatus)) := by
  induction proj with
  | nil => rfl
  | cons d rest ih => rw [determineOverall_cons, ih]; rfl

/-- RED is the top of the status order. -/
theorem statusLe_RED (a : StatusLevel) : statusLe a .RED := by cases a <;> decide

/-- Shrinking the fiscal space (demand fixed) can only worsen the flow status. -/
theorem getFiscalStatus_antitone (d s s' : ℚ) (h : s' ≤ s) :
    statusLe (getFiscalStatus d s) (getFiscalStatus d s') := by
  unfold getFiscalStatus
  by_cases hs' : s' ≤ 0
  · rw [if_pos hs']
    exact statusLe_RED _
  · have hs'pos : 0 < s' := lt_of_not_le hs'
    have hspos : 0 < s := lt_of_lt_of_le hs'pos h
    have hs0 : ¬ s ≤ 0 := not_le.mpr hspos
    rw [if_neg hs', if_neg hs0]
    by_cases hd : 0 ≤ d
    · have hrr : d / s ≤ d / s' := by
        rw [div_le_div_iff hspos hs'pos]
        nlinarith
      simp only [fiscalGreen, fiscalYellow]
      split_ifs <;> first | decide | (exfalso; linarith)
    · push_neg at hd
      have h1 : d / s ≤ 0.8 := le_trans (le_of_lt (div_neg_of_neg_of_pos hd hspos)) (by norm_num)
      have h2 : d / s' ≤ 0.8 := le_trans (le_of_lt (div_neg_of_neg_of_pos hd hs'pos)) (by norm_num)
      simp only [fiscalGreen, fiscalYellow]
      rw [if_pos h1, if_pos h2]
      decide

/-- The combined status is monotone in the flow status. -/
theorem combined_mono (f f' dstat : StatusLevel) (h : statusLe f f') :
    statusLe (getCombinedFiscalStatus f dstat) (getCombinedFiscalStatus f' dstat) := by
  revert h
  revert f f' dstat
  decide

/-- `statusMax` is monotone in both arguments. -/
theorem statusMax_mono (a b x y : StatusLevel) (hab : statusLe a b) (hxy : statusLe x y) :
    statusLe (statusMax a x) (statusMax b y) := by
  revert hab hxy
  revert a b x y
  decide

/-- `worstStatus` is monotone under pointwise comparison. -/
theorem worstStatus_mono {l₁ l₂ : List StatusLevel} (h : List.Forall₂ statusLe l₁ l₂) :
    statusLe (worstStatus l₁) (worstStatus l₂) := by
  induction h with
  | nil => decide
  | cons ha ht ih => exact statusMax_mono _ _ _ _ ha ih

/-- Pointwise relatedness of two maps over the same list. -/
theorem forall₂_map_of_forall {α β : Type} (f g : α → β) (r : β → β → Prop) (l : List α)
    (h : ∀ x ∈ l, r (f x) (g x)) : List.Forall₂ r (l.map f) (l.map g) := by
  induction l with
  | nil => exact List.Forall₂.nil
  | cons a t ih =>
    exact List.Forall₂.cons (h a (List.mem_cons_self a t)) (ih fun x hx => h x (List.mem_cons_of_mem a hx))

/-- Every yearly oil-production growth factor is nonnegative. -/
theorem oilProdFactor_nonneg (i : ℤ) : 0 ≤ 1 + oilProdGrowth i := by
  unfold oilProdGrowth
  split <;> norm_num

/-- A product of nonnegative growth factors starting from a nonnegative base is nonnegative. -/
theorem foldl_growth_nonneg (g : ℤ → ℚ) (hg : ∀ i, 0 ≤ 1 + g i) :
    ∀ (l : List ℕ) (init : ℚ), 0 ≤ init →
      0 ≤ l.foldl (fun p y => p * (1 + g (2025 + (y : ℤ)))) init := by
  intro l
  induction l with
  | nil => intro init h; exact h
  | cons a t ih => intro init h; exact ih _ (mul_nonneg h (hg _))

/-- Oil production is nonnegative in every year. -/
theorem calculateOilProduction_nonneg (year : ℤ) : 0 ≤ calculateOilProduction year := by
  unfold calculateOilProduction
  exact foldl_growth_nonneg _ oilProdFactor_nonneg _ _ (by norm_num [OIL_PROD_2025])

/-- Oil revenue at 50 USD/bbl is at most oil revenue at 65 USD/bbl. -/
theorem oilRevenue_mono (year : ℤ) :
    calculateOilRevenue year 50 ≤ calculateOilRevenue year 65 := by
  unfold calculateOilRevenue GOV_TAKE_RATE DAYS_PER_YEAR
  nlinarith [calculateOilProduction_nonneg year]

/-- Total annual revenue does not increase when the oil price drops from the 65 to the 50 scenario. -/
theorem revenue_total_mono_oil (y : ℤ) (c : ControlInputs) (hc : c.oilPrice = .p65) :
    (calculateAnnualRevenue y {c with oilPrice := .p50}).total
      ≤ (calculateAnnualRevenue y c).total := by
  unfold calculateAnnualRevenue
  simp only [hc]
  have h50 := oilRevenue_mono y
  simp only [oilPriceValue] at h50 ⊢
  linarith

/-- Fiscal space does not increase when the oil price drops from the 65 to the 50 scenario. -/
theorem fiscalSpace_mono_oil (y : ℤ) (c : ControlInputs) (hc : c.oilPrice = .p65) :
    calculateFiscalSpace y {c with oilPrice := .p50} ≤ calculateFiscalSpace y c := by
  have hrev := revenue_total_mono_oil y c hc
  unfold calculateFiscalSpace
  refine min_le_min (min_le_min (min_le_min ?_ ?_) le_rfl) le_rfl
  · unfold calculateCofinancingLimit MAX_COFIN_SAFE
    nlinarith
  · unfold calculateDeficitLimit
    dsimp only
    linarith

/-- Every clamped gate pass rate lies between 0 and the gate ceiling. -/
theorem gatePassRate_bounds (gate : ℕ) (hg : gate ∈ ACTIVE_GATES) (ctx : GatePassRateContext) :
    0 ≤ calculateGatePassRate gate ctx ∧ calculateGatePassRate gate ctx ≤ gateCeiling gate := by
  have hfc : (0:ℚ) ≤ gateFloor gate ∧ gateFloor gate ≤ gateCeiling gate := by
    fin_cases hg <;> exact ⟨by norm_num [gateFloor], by norm_num [gateFloor, gateCeiling]⟩
  unfold calculateGatePassRate clamp
  exact ⟨le_trans hfc.1 (le_max_left _ _), max_le hfc.2 (min_le_left _ _)⟩

/-- Bounds of a product from bounds of its factors. -/
theorem mul_bounds {a A b B : ℚ} (ha0 : 0 ≤ a) (haA : a ≤ A) (hb0 : 0 ≤ b) (hbB : b ≤ B) :
    0 ≤ a * b ∧ a * b ≤ A * B :=
  ⟨mul_nonneg ha0 hb0, mul_le_mul haA hbB hb0 (le_trans ha0 haA)⟩

/-- Every cumulative pass rate lies in [0, 0.7730093], the product of the gate ceilings. -/
theorem cumulative_bounds (ctx : GatePassRateContext) :
    0 ≤ calculateCumulativePassRate ctx
      ∧ calculateCumulativePassRate ctx ≤ 7730093/10000000 := by
  obtain ⟨h20, h2c⟩ := gatePassRate_bounds 2 (by decide) ctx
  obtain ⟨h30, h3c⟩ := gatePassRate_bounds 3 (by decide) ctx
  obtain ⟨h40, h4c⟩ := gatePassRate_bounds 4 (by decide) ctx
  obtain ⟨h50, h5c⟩ := gatePassRate_bounds 5 (by decide) ctx
  obtain ⟨h60, h6c⟩ := gatePassRate_bounds 6 (by decide) ctx
  norm_num [gateCeiling] at h2c h3c h4c h5c h6c
  have s6 := mul_bounds h60 h6c (zero_le_one) (le_refl (1:ℚ))
  have s5 := mul_bounds h50 h5c s6.1 s6.2
  have s4 := mul_bounds h40 h4c s5.1 s5.2
  have s3 := mul_bounds h30 h3c s4.1 s4.2
  have s2 := mul_bounds h20 h2c s3.1 s3.2
  unfold calculateCumulativePassRate ACTIVE_GATES
  simp only [List.map, List.prod_cons, List.prod_nil]
  refine ⟨s2.1, le_trans s2.2 (by norm_num)⟩

/-- With a nonnegative modality split summing to 100, the weighted cumulative pass rate also lies in [0, 0.7730093]. -/
theorem weighted_cumulative_bounds (c : ControlInputs) (lr : ℚ)
    (hg : 0 ≤ c.pctGovLed) (hp : 0 ≤ c.pctPPP) (hv : 0 ≤ c.pctPrivate)
    (hsum : c.pctGovLed + c.pctPPP + c.pctPrivate = 100) :
    0 ≤ calculateWeightedCumulativePassRate c lr
      ∧ calculateWeightedCumulativePassRate c lr ≤ 7730093/10000000 := by
  obtain ⟨hA0, hAc⟩ := cumulative_bounds ⟨c, .GOV_LED, false, lr⟩
  obtain ⟨hB0, hBc⟩ := cumulative_bounds ⟨c, .PPP, false, lr⟩
  obtain ⟨hC0, hCc⟩ := cumulative_bounds ⟨c, .FULLY_PRIVATE, false, lr⟩
  have wg : (0:ℚ) ≤ c.pctGovLed / 100 := by positivity
  have wp : (0:ℚ) ≤ c.pctPPP / 100 := by positivity
  have wv : (0:ℚ) ≤ c.pctPrivate / 100 := by positivity
  unfold calculateWeightedCumulativePassRate
  constructor
  · exact add_nonneg (add_nonneg (mul_nonneg wg hA0) (mul_nonneg wp hB0)) (mul_nonneg wv hC0)
  · have t1 := mul_le_mul_of_nonneg_left hAc wg
    have t2 := mul_le_mul_of_nonneg_left hBc wp
    have t3 := mul_le_mul_of_nonneg_left hCc wv
    calc c.pctGovLed / 100 * calculateCumulativePassRate ⟨c, .GOV_LED, false, lr⟩
          + c.pctPPP / 100 * calculateCumulativePassRate ⟨c, .PPP, false, lr⟩
          + c.pctPrivate / 100 * calculateCumulativePassRate ⟨c, .FULLY_PRIVATE, false, lr⟩
        ≤ c.pctGovLed / 100 * (7730093/10000000) + c.pctPPP / 100 * (7730093/10000000)
          + c.pctPrivate / 100 * (7730093/10000000) := by linarith
      _ = (c.pctGovLed + c.pctPPP + c.pctPrivate) / 100 * (7730093/10000000) := by ring
      _ = 7730093/10000000 := by rw [hsum]; norm_num

/-- C1: for every `ControlInputs` record, the per-year `fids` of `pipelineByYear` sum exactly to `outputs.nFid`. -/
theorem C1_conservation (c : ControlInputs) :
    (((runSimulation c).outputs.pipelineByYear).map (fun r => r.fids)).sum
      = (runSimulation c).outputs.nFid := by
  have h1 : (runSimulation c).outputs.pipelineByYear
      = generatePipelineData (simTotalFids c) (simDrops c).total c.nActive (simAvgDuration c) c := rfl
  have h2 : (runSimulation c).outputs.nFid = simTotalFids c := rfl
  rw [h1, h2]
  unfold generatePipelineData
  rw [pipelineRows_map_fids]
  exact sum_distributeFidsAcrossYears _ _

/-- C2, counterexample: with `totalFids = 10 ≥ 0` and `avgDurationMonths = 72 ≥ 0`, the first FID year 2031 exceeds 2030, yet year 2030 — strictly earlier than 2031 — receives all 10 FIDs instead of 0, refuting the claim as stated. -/
theorem C2_counterexample :
    (0:ℚ) ≤ 10 ∧ (0:ℚ) ≤ 72 ∧ (2030:ℤ) < firstFidYear 72 2025 ∧
      distributeFidsAcrossYears 10 72 2025 2030 = 10 := by
  refine ⟨by norm_num, by norm_num, ?_, ?_⟩
  · rw [firstFidYear_72]; norm_num
  · simp only [distributeFidsAcrossYears, firstFidYear_72]
    norm_num [update, SIMULATION_YEARS, List.filter]

/-- C2, amended: when `firstFidYear = ceil(2025 + avgDurationMonths/12)` does not exceed 2030, every earlier simulation year gets zero FIDs, every year from `firstFidYear` on gets its rounded ramp share with weight `(year − firstFidYear) + 1`, and 2030 additionally absorbs the rounding residual. -/
theorem C2_amended_ramp (T d : ℚ) (_hT : 0 ≤ T) (hd : 0 ≤ d)
    (hf : firstFidYear d 2025 ≤ 2030) :
    (∀ y ∈ SIMULATION_YEARS, y < firstFidYear d 2025 →
        distributeFidsAcrossYears T d 2025 y = 0) ∧
    (∀ y ∈ SIMULATION_YEARS, firstFidYear d 2025 ≤ y → y ≠ 2030 →
        distributeFidsAcrossYears T d 2025 y
          = rampShare T (2031 - firstFidYear d 2025).toNat (y - firstFidYear d 2025).toNat) ∧
    distributeFidsAcrossYears T d 2025 2030
      = rampShare T (2031 - firstFidYear d 2025).toNat (2030 - firstFidYear d 2025).toNat
        + (T - rampAllocated T (2031 - firstFidYear d 2025).toNat) := by
  have hge : (2025:ℤ) ≤ firstFidYear d 2025 := by
    have h12 : (0:ℚ) ≤ d / 12 := by positivity
    have := Int.le_ceil ((2025:ℚ) + d / 12)
    unfold firstFidYear
    by_contra hlt
    push_neg at hlt
    have h2 : ((firstFidYear d 2025 : ℤ) : ℚ) < 2025 := by exact_mod_cast hlt
    unfold firstFidYear at h2
    nlinarith [this]
  simp only [distributeFidsAcrossYears]
  obtain ⟨k, hk⟩ : ∃ k, firstFidYear d 2025 = k := ⟨_, rfl⟩
  rw [hk] at hf hge ⊢
  interval_cases k
  · have hrem : SIMULATION_YEARS.filter (fun y => decide ((2025:ℤ) ≤ y))
        = [2025, 2026, 2027, 2028, 2029, 2030] := by decide
    simp only [hrem, List.isEmpty, List.length, List.zip, List.zipWith, List.foldl,
      show ([2025, 2026, 2027, 2028, 2029, 2030] : List ℤ).getLast? = some 2030 from rfl,
      show ((2031:ℤ) - 2025).toNat = 6 from rfl]
    refine ⟨?_, ?_, ?_⟩
    · intro y hy hlt
      simp only [SIMULATION_YEARS] at hy
      fin_cases hy <;> first
        | omega
        | (norm_num [update]; try rfl)
    · intro y hy hgey hne
      simp only [SIMULATION_YEARS] at hy
      fin_cases hy <;> first
        | omega
        | (norm_num [update]; try rfl)
    · norm_num [update]; try rfl
  · have hrem : SIMULATION_YEARS.filter (fun y => decide ((2026:ℤ) ≤ y))
        = [2026, 2027, 2028, 2029, 2030] := by decide
    simp only [hrem, List.isEmpty, List.length, List.zip, List.zipWith, List.foldl,
      show ([2026, 2027, 2028, 2029, 2030] : List ℤ).getLast? = some 2030 from rfl,
      show ((2031:ℤ) - 2026).toNat = 5 from rfl]
    refine ⟨?_, ?_, ?_⟩
    · intro y hy hlt
      simp only [SIMULATION_YEARS] at hy
      fin_cases hy <;> first
        | omega
        | (norm_num [update]; try rfl)
    · intro y hy hgey hne
      simp only [SIMULATION_YEARS] at hy
      fin_cases hy <;> first
        | omega
        | (norm_num [update]; try rfl)
    · norm_num [update]; try rfl

  · have hrem : SIMULATION_YEARS.filter (fun y => decide ((2027:ℤ) ≤ y))
        = [2027, 2028, 2029, 2030] := by decide
    simp only [hrem, List.isEmpty, List.length, List.zip, List.zipWith, List.foldl,
      show ([2027, 2028, 2029, 2030] : List ℤ).getLast? = some 2030 from rfl,
      show ((2031:ℤ) - 2027).toNat = 4 from rfl]
    refine ⟨?_, ?_, ?_⟩
    · intro y hy hlt
      simp only [SIMULATION_YEARS] at hy
      fin_cases hy <;> first
        | omega
        | (norm_num [update]; try rfl)
    · intro y hy hgey hne
      simp only [SIMULATION_YEARS] at hy
      fin_cases hy <;> first
        | omega
        | (norm_num [update]; try rfl)
    · norm_num [update]; try rfl

  · have hrem : SIMULATION_YEARS.filter (fun y => decide ((2028:ℤ) ≤ y))
        = [2028, 2029, 2030] := by decide
    simp only [hrem, List.isEmpty, List.length, List.zip, List.zipWith, List.foldl,
      show ([2028, 2029, 2030] : List ℤ).getLast? = some 2030 from rfl,
      show ((2031:ℤ) - 2028).toNat = 3 from rfl]
    refine ⟨?_, ?_, ?_⟩
    · intro y hy hlt
      simp only [SIMULATION_YEARS] at hy
      fin_cases hy <;> first
        | omega
        | (norm_num [update]; try rfl)
    · intro y hy hgey hne
      simp only [SIMULATION_YEARS] at hy
      fin_cases hy <;> first
        | omega
        | (norm_num [update]; try rfl)
    · norm_num [update]; try rfl

  · have hrem : SIMULATION_YEARS.filter (fun y => decide ((2029:ℤ) ≤ y))
        = [2029, 2030] := by decide
    simp only [hrem, List.isEmpty, List.length, List.zip, List.zipWith, List.foldl,
      show ([2029, 2030] : List ℤ).getLast? = some 2030 from rfl,
      show ((2031:ℤ) - 2029).toNat = 2 from rfl]
    refine ⟨?_, ?_, ?_⟩
    · intro y hy hlt
      simp only [SIMULATION_YEARS] at hy
      fin_cases hy <;> first
        | omega
        | (norm_num [update]; try rfl)
    · intro y hy hgey hne
      simp only [SIMULATION_YEARS] at hy
      fin_cases hy <;> first
        | omega
        | (norm_num [update]; try rfl)
    · norm_num [update]; try rfl

  · have hrem : SIMULATION_YEARS.filter (fun y => decide ((2030:ℤ) ≤ y))
        = [2030] := by decide
    simp only [hrem, List.isEmpty, List.length, List.zip, List.zipWith, List.foldl,
      show ([2030] : List ℤ).getLast? = some 2030 from rfl,
      show ((2031:ℤ) - 2030).toNat = 1 from rfl]
    refine ⟨?_, ?_, ?_⟩
    · intro y hy hlt
      simp only [SIMULATION_YEARS] at hy
      fin_cases hy <;> first
        | omega
        | (norm_num [update]; try rfl)
    · intro y hy hgey hne
      simp only [SIMULATION_YEARS] at hy
      fin_cases hy <;> first
        | omega
        | (norm_num [update]; try rfl)
    · norm_num [update]; try rfl

/-- C2, witness: the amended theorem applied at `totalFids = 10`, `avgDurationMonths = 0`. -/
theorem C2_amended_witness :
    (0:ℚ) ≤ 10 ∧ (0:ℚ) ≤ 0 ∧ firstFidYear 0 2025 ≤ 2030 ∧
      ((∀ y ∈ SIMULATION_YEARS, y < firstFidYear 0 2025 →
          distributeFidsAcrossYears 10 0 2025 y = 0) ∧
        (∀ y ∈ SIMULATION_YEARS, firstFidYear 0 2025 ≤ y → y ≠ 2030 →
            distributeFidsAcrossYears 10 0 2025 y
              = rampShare 10 (2031 - firstFidYear 0 2025).toNat (y - firstFidYear 0 2025).toNat) ∧
        distributeFidsAcrossYears 10 0 2025 2030
          = rampShare 10 (2031 - firstFidYear 0 2025).toNat (2030 - firstFidYear 0 2025).toNat
            + (10 - rampAllocated 10 (2031 - firstFidYear 0 2025).toNat)) :=
  ⟨by norm_num, le_rfl, by norm_num [firstFidYear],
    C2_amended_ramp 10 0 (by norm_num) le_rfl (by norm_num [firstFidYear])⟩

/-- C3: for every `ControlInputs` record, `outputs.fiscalStatus` is one of GREEN, YELLOW, RED and equals the worst (maximum in the order GREEN < YELLOW < RED) of the per-year statuses of `outputs.fiscalByYear`. -/
theorem C3_overall_status (c : ControlInputs) :
    (runSimulation c).outputs.fiscalStatus
        = worstStatus (((runSimulation c).outputs.fiscalByYear).map (fun r => r.fiscalStatus)) ∧
      ((runSimulation c).outputs.fiscalStatus = .GREEN
        ∨ (runSimulation c).outputs.fiscalStatus = .YELLOW
        ∨ (runSimulation c).outputs.fiscalStatus = .RED) := by
  constructor
  · exact determineOverall_eq_worst (simFiscalProjection c)
  · cases h : (runSimulation c).outputs.fiscalStatus
    · exact Or.inl rfl
    · exact Or.inr (Or.inl rfl)
    · exact Or.inr (Or.inr rfl)

/-- C4: for every simulation year and every `ControlInputs` record, `calculateFiscalSpace` is exactly the minimum of the four constraint limits, and in particular never exceeds 35% of total annual revenue. -/
theorem C4_fiscal_space_min (year : ℤ) (hy : year ∈ SIMULATION_YEARS) (c : ControlInputs) :
    calculateFiscalSpace year c
        = min (min (min (calculateCofinancingLimit year c) (calculateDeficitLimit year c))
            (calculateContingentLimit year)) (calculateDebtHeadroom year) ∧
      calculateFiscalSpace year c ≤ (calculateAnnualRevenue year c).total * MAX_COFIN_SAFE := by
  refine ⟨rfl, ?_⟩
  calc calculateFiscalSpace year c
      ≤ calculateCofinancingLimit year c := by
        unfold calculateFiscalSpace
        exact le_trans (min_le_left _ _) (le_trans (min_le_left _ _) (min_le_left _ _))
    _ = (calculateAnnualRevenue year c).total * MAX_COFIN_SAFE := rfl

/-- C4, witness: the theorem applied at year 2025 with the default controls. -/
theorem C4_witness :
    (2025 : ℤ) ∈ SIMULATION_YEARS ∧
      (calculateFiscalSpace 2025 defaultControls
          = min (min (min (calculateCofinancingLimit 2025 defaultControls)
              (calculateDeficitLimit 2025 defaultControls))
              (calculateContingentLimit 2025)) (calculateDebtHeadroom 2025) ∧
        calculateFiscalSpace 2025 defaultControls
          ≤ (calculateAnnualRevenue 2025 defaultControls).total * MAX_COFIN_SAFE) :=
  ⟨by decide, C4_fiscal_space_min 2025 (by decide) defaultControls⟩

/-- C5: lowering the oil price from the 65 scenario to the 50 scenario (all else equal) never improves the ordinal `outputs.fiscalStatus`. -/
theorem C5_oil_price (c : ControlInputs) (hc : c.oilPrice = .p65) :
    statusLe ((runSimulation c).outputs.fiscalStatus)
      ((runSimulation {c with oilPrice := .p50}).outputs.fiscalStatus) := by
  show statusLe (determineOverallFiscalStatus (simFiscalProjection c))
    (determineOverallFiscalStatus (simFiscalProjection {c with oilPrice := .p50}))
  rw [determineOverall_eq_worst, determineOverall_eq_worst]
  apply worstStatus_mono
  unfold simFiscalProjection generateFiscalProjection
  have hcof : simCofinByYear {c with oilPrice := .p50} = simCofinByYear c := rfl
  rw [hcof, List.map_map, List.map_map]
  apply forall₂_map_of_forall
  intro y hy
  simp only [Function.comp]
  apply combined_mono
  exact getFiscalStatus_antitone _ _ _ (fiscalSpace_mono_oil y c hc)

/-- C5, witness: the theorem applied at the default controls. -/
theorem C5_witness :
    defaultControls.oilPrice = .p65 ∧
      statusLe ((runSimulation defaultControls).outputs.fiscalStatus)
        ((runSimulation {defaultControls with oilPrice := .p50}).outputs.fiscalStatus) :=
  ⟨rfl, C5_oil_price defaultControls rfl⟩

set_option maxHeartbeats 1000000 in
/-- C6: starting from the default controls, enabling the advisor strictly decreases `outputs.avgTimeToFid` and does not decrease `outputs.nFid`. -/
theorem C6_advisor_monotone :
    (runSimulation {defaultControls with advisor := true}).outputs.avgTimeToFid
        < (runSimulation defaultControls).outputs.avgTimeToFid
      ∧ (runSimulation defaultControls).outputs.nFid
          ≤ (runSimulation {defaultControls with advisor := true}).outputs.nFid := by
  have hbase : simAvgDuration defaultControls = 189147/4000 := by
    norm_num [simAvgDuration, calculateWeightedAverageDuration, calculateTotalDuration,
      ACTIVE_STAGES, calculateStageDuration, stageBaseDuration, modalityDurationMultiplier,
      advisorDurationMod, pmuMaxDurationReduction, championDurationReduction,
      getCapacityDurationModifier, capacityGreen, capacityYellow, durationYellow, durationRed,
      riskDurationMod, MAX_PMU_ADD, max_def, min_def, defaultControls,
      estimatedLoadRatio, calculateTotalCapacity, PMU_BASE, PROJECTS_PER_FTE, ADVISOR_FTE_EQUIV]
  have hc : ({defaultControls with advisor := true} : ControlInputs)
      = { advisor := true, advisorMonths := 18, pmuAdd := 0, nChampion := 0, nActive := 50,
          pctGovLed := 40, pctPPP := 40, pctPrivate := 20, oilPrice := .p65, donorRate := 0.7,
          politicalRisk := .MED } := rfl
  have hadv : simAvgDuration {defaultControls with advisor := true} = 561538761/16000000 := by
    rw [hc]
    norm_num [simAvgDuration, calculateWeightedAverageDuration, calculateTotalDuration,
      ACTIVE_STAGES, calculateStageDuration, stageBaseDuration, modalityDurationMultiplier,
      advisorDurationMod, pmuMaxDurationReduction, championDurationReduction,
      getCapacityDurationModifier, capacityGreen, capacityYellow, durationYellow, durationRed,
      riskDurationMod, MAX_PMU_ADD, max_def, min_def, defaultControls,
      estimatedLoadRatio, calculateTotalCapacity, PMU_BASE, PROJECTS_PER_FTE, ADVISOR_FTE_EQUIV]
  have hnbase : simTotalFids defaultControls = 9 := by
    norm_num [simTotalFids, jsRound, calculateChampionedPassRate, calculateWeightedCumulativePassRate,
      calculateCumulativePassRate, ACTIVE_GATES, calculateGatePassRate, clamp, gateBaseRate,
      gateFloor, gateCeiling, modalityPassRateAdjustment, advisorLiftMod, pmuMaxLiftMod,
      championLift, getCapacityPassPenalty, capacityGreen, capacityYellow, passYellow, passRed,
      riskPassPenalty, MAX_PMU_ADD, max_def, min_def, defaultControls,
      estimatedLoadRatio, calculateTotalCapacity, PMU_BASE, PROJECTS_PER_FTE, ADVISOR_FTE_EQUIV]
  have hnadv : simTotalFids {defaultControls with advisor := true} = 16 := by
    rw [hc]
    norm_num [simTotalFids, jsRound, calculateChampionedPassRate, calculateWeightedCumulativePassRate,
      calculateCumulativePassRate, ACTIVE_GATES, calculateGatePassRate, clamp, gateBaseRate,
      gateFloor, gateCeiling, modalityPassRateAdjustment, advisorLiftMod, pmuMaxLiftMod,
      championLift, getCapacityPassPenalty, capacityGreen, capacityYellow, passYellow, passRed,
      riskPassPenalty, MAX_PMU_ADD, max_def, min_def, defaultControls,
      estimatedLoadRatio, calculateTotalCapacity, PMU_BASE, PROJECTS_PER_FTE, ADVISOR_FTE_EQUIV]
  constructor
  · show simAvgDuration {defaultControls with advisor := true} < simAvgDuration defaultControls
    rw [hbase, hadv]
    norm_num
  · show simTotalFids defaultControls ≤ simTotalFids {defaultControls with advisor := true}
    rw [hnbase, hnadv]
    norm_num

/-- C7: the championed-cohort pass rate ignores the modality split — two records differing only in the split give the same value, and that value is the product over gates 2-6 of the gate pass rates with modality PPP and `hasChampion = true`. -/
theorem C7_champion_fixed_modality (c₁ c₂ : ControlInputs) (lr : ℚ)
    (hadv : c₁.advisor = c₂.advisor) (_hmo : c₁.advisorMonths = c₂.advisorMonths)
    (hpmu : c₁.pmuAdd = c₂.pmuAdd) (_hch : c₁.nChampion = c₂.nChampion)
    (_hact : c₁.nActive = c₂.nActive) (_hoil : c₁.oilPrice = c₂.oilPrice)
    (_hdon : c₁.donorRate = c₂.donorRate) (hrisk : c₁.politicalRisk = c₂.politicalRisk) :
    calculateChampionedPassRate c₁ lr = calculateChampionedPassRate c₂ lr ∧
      calculateChampionedPassRate c₁ lr
        = (ACTIVE_GATES.map (fun gate => calculateGatePassRate gate ⟨c₁, .PPP, true, lr⟩)).prod := by
  refine ⟨?_, rfl⟩
  unfold calculateChampionedPassRate calculateGatePassRate
  simp only [hadv, hpmu, hrisk]

/-- C7, witness: the theorem applied at the default controls and a 10/80/10 split, load ratio 1. -/
theorem C7_witness :
    calculateChampionedPassRate defaultControls 1
        = calculateChampionedPassRate
            {defaultControls with pctGovLed := 10, pctPPP := 80, pctPrivate := 10} 1
      ∧ calculateChampionedPassRate defaultControls 1
        = (ACTIVE_GATES.map
            (fun gate => calculateGatePassRate gate ⟨defaultControls, .PPP, true, 1⟩)).prod :=
  C7_champion_fixed_modality defaultControls _ 1 rfl rfl rfl rfl rfl rfl rfl rfl

/-- C8: for in-domain controls (and also for the out-of-domain `nActive = 0`), `runSimulation` is a total function whose output bundle is fully populated: both year series have all six years and `projectStates` is the empty list. -/
theorem C8_total_function (c : ControlInputs)
    (_hpmu : 0 ≤ c.pmuAdd ∧ c.pmuAdd ≤ 15)
    (_hch : 0 ≤ c.nChampion ∧ c.nChampion ≤ 20)
    (_hact : (20 ≤ c.nActive ∧ c.nActive ≤ 268) ∨ c.nActive = 0)
    (_hdon : 0.5 ≤ c.donorRate ∧ c.donorRate ≤ 0.9) :
    (runSimulation c).outputs.fiscalByYear.length = 6
      ∧ (runSimulation c).outputs.pipelineByYear.length = 6
      ∧ (runSimulation c).projectStates = [] := by
  refine ⟨?_, ?_, rfl⟩
  · show (simFiscalProjection c).length = 6
    unfold simFiscalProjection generateFiscalProjection
    rfl
  · show (generatePipelineData (simTotalFids c) (simDrops c).total c.nActive
        (simAvgDuration c) c).length = 6
    unfold generatePipelineData
    rw [pipelineRows_length]
    rfl

/-- C8, witness: the theorem applied at the default controls. -/
theorem C8_witness :
    ((0:ℚ) ≤ defaultControls.pmuAdd ∧ defaultControls.pmuAdd ≤ 15) ∧
      ((0:ℚ) ≤ defaultControls.nChampion ∧ defaultControls.nChampion ≤ 20) ∧
      (((20:ℚ) ≤ defaultControls.nActive ∧ defaultControls.nActive ≤ 268)
        ∨ defaultControls.nActive = 0) ∧
      ((0.5:ℚ) ≤ defaultControls.donorRate ∧ defaultControls.donorRate ≤ 0.9) ∧
      ((runSimulation defaultControls).outputs.fiscalByYear.length = 6
        ∧ (runSimulation defaultControls).outputs.pipelineByYear.length = 6
        ∧ (runSimulation defaultControls).projectStates = []) :=
  ⟨⟨by norm_num [defaultControls], by norm_num [defaultControls]⟩,
    ⟨by norm_num [defaultControls], by norm_num [defaultControls]⟩,
    Or.inl ⟨by norm_num [defaultControls], by norm_num [defaultControls]⟩,
    ⟨by norm_num [defaultControls], by norm_num [defaultControls]⟩,
    C8_total_function defaultControls
      ⟨by norm_num [defaultControls], by norm_num [defaultControls]⟩
      ⟨by norm_num [defaultControls], by norm_num [defaultControls]⟩
      (Or.inl ⟨by norm_num [defaultControls], by norm_num [defaultControls]⟩)
      ⟨by norm_num [defaultControls], by norm_num [defaultControls]⟩⟩

set_option maxHeartbeats 1000000 in
/-- C9, counterexample: a split with `pctGovLed = -9900, pctPPP = 10000, pctPrivate = 0` sums to 100 and satisfies `0 ≤ nChampion ≤ nActive`, yet `outputs.nFid = 1191 > 50 = nActive`, refuting the claim as stated. -/
theorem C9_counterexample :
    extremeSplitControls.pctGovLed + extremeSplitControls.pctPPP
        + extremeSplitControls.pctPrivate = 100
      ∧ 0 ≤ extremeSplitControls.nChampion
      ∧ extremeSplitControls.nChampion ≤ extremeSplitControls.nActive
      ∧ extremeSplitControls.nActive < (runSimulation extremeSplitControls).outputs.nFid := by
  refine ⟨by norm_num [extremeSplitControls], by norm_num [extremeSplitControls],
    by norm_num [extremeSplitControls], ?_⟩
  show extremeSplitControls.nActive < simTotalFids extremeSplitControls
  have h : simTotalFids extremeSplitControls = 1191 := by
    norm_num [simTotalFids, jsRound, calculateChampionedPassRate,
      calculateWeightedCumulativePassRate, calculateCumulativePassRate, ACTIVE_GATES,
      calculateGatePassRate, clamp, gateBaseRate, gateFloor, gateCeiling,
      modalityPassRateAdjustment, advisorLiftMod, pmuMaxLiftMod, championLift,
      getCapacityPassPenalty, capacityGreen, capacityYellow, passYellow, passRed,
      riskPassPenalty, MAX_PMU_ADD, max_def, min_def, extremeSplitControls,
      estimatedLoadRatio, calculateTotalCapacity, PMU_BASE, PROJECTS_PER_FTE, ADVISOR_FTE_EQUIV]
  rw [h]
  norm_num [extremeSplitControls]

/-- C9, amended: when additionally each modality percentage is nonnegative and `nActive` is in its declared domain (`nActive ≥ 20`), both the championed and the modality-weighted cumulative pass rates are strictly below 1 and `outputs.nFid ≤ nActive`. -/
theorem C9_amended_nfid (c : ControlInputs)
    (hg : 0 ≤ c.pctGovLed) (hp : 0 ≤ c.pctPPP) (hv : 0 ≤ c.pctPrivate)
    (hsum : c.pctGovLed + c.pctPPP + c.pctPrivate = 100)
    (hch0 : 0 ≤ c.nChampion) (hch : c.nChampion ≤ c.nActive) (hact : 20 ≤ c.nActive) :
    calculateChampionedPassRate c (estimatedLoadRatio c) < 1
      ∧ calculateWeightedCumulativePassRate c (estimatedLoadRatio c) < 1
      ∧ (runSimulation c).outputs.nFid ≤ c.nActive := by
  have hcb : 0 ≤ calculateChampionedPassRate c (estimatedLoadRatio c)
      ∧ calculateChampionedPassRate c (estimatedLoadRatio c) ≤ 7730093/10000000 :=
    cumulative_bounds ⟨c, .PPP, true, estimatedLoadRatio c⟩
  have hwb := weighted_cumulative_bounds c (estimatedLoadRatio c) hg hp hv hsum
  refine ⟨lt_of_le_of_lt hcb.2 (by norm_num), lt_of_le_of_lt hwb.2 (by norm_num), ?_⟩
  show simTotalFids c ≤ c.nActive
  unfold simTotalFids jsRound
  have hd : 0 ≤ c.nActive - c.nChampion := by linarith
  have t1 := mul_le_mul_of_nonneg_left hcb.2 hch0
  have t2 := mul_le_mul_of_nonneg_left hwb.2 hd
  have hx : c.nChampion * calculateChampionedPassRate c (estimatedLoadRatio c)
      + (c.nActive - c.nChampion) * calculateWeightedCumulativePassRate c (estimatedLoadRatio c)
      ≤ c.nActive * (7730093/10000000) := by nlinarith
  have hfl := Int.floor_le (c.nChampion * calculateChampionedPassRate c (estimatedLoadRatio c)
      + (c.nActive - c.nChampion) * calculateWeightedCumulativePassRate c (estimatedLoadRatio c) + 1/2)
  have hend : c.nChampion * calculateChampionedPassRate c (estimatedLoadRatio c)
      + (c.nActive - c.nChampion) * calculateWeightedCumulativePassRate c (estimatedLoadRatio c) + 1/2
      ≤ c.nActive := by nlinarith
  exact le_trans hfl hend

/-- C9, witness: the amended theorem applied at the default controls. -/
theorem C9_amended_witness :
    ((0:ℚ) ≤ defaultControls.pctGovLed ∧ (0:ℚ) ≤ defaultControls.pctPPP
        ∧ (0:ℚ) ≤ defaultControls.pctPrivate
        ∧ defaultControls.pctGovLed + defaultControls.pctPPP + defaultControls.pctPrivate = 100
        ∧ (0:ℚ) ≤ defaultControls.nChampion
        ∧ defaultControls.nChampion ≤ defaultControls.nActive
        ∧ (20:ℚ) ≤ defaultControls.nActive)
      ∧ (calculateChampionedPassRate defaultControls (estimatedLoadRatio defaultControls) < 1
        ∧ calculateWeightedCumulativePassRate defaultControls (estimatedLoadRatio defaultControls) < 1
        ∧ (runSimulation defaultControls).outputs.nFid ≤ defaultControls.nActive) :=
  ⟨⟨by norm_num [defaultControls], by norm_num [defaultControls], by norm_num [defaultControls],
      by norm_num [defaultControls], by norm_num [defaultControls], by norm_num [defaultControls],
      by norm_num [defaultControls]⟩,
    C9_amended_nfid defaultControls (by norm_num [defaultControls]) (by norm_num [defaultControls])
      (by norm_num [defaultControls]) (by norm_num [defaultControls])
      (by norm_num [defaultControls]) (by norm_num [defaultControls])
      (by norm_num [defaultControls])⟩

/-- C10: `calculateInvestmentMobilized` returns `private = total − govCofinancing` exactly, and in every simulation output `investmentTotal = investmentPrivate + cofinancingTotal` holds as an exact identity. -/
theorem C10_investment_identity :
    (∀ (fids : ℚ) (c : ControlInputs), 0 ≤ fids →
        (calculateInvestmentMobilized fids c).privateCapital
          = (calculateInvestmentMobilized fids c).total
            - (calculateInvestmentMobilized fids c).govCofinancing) ∧
      ∀ c : ControlInputs,
        (runSimulation c).outputs.investmentTotal
          = (runSimulation c).outputs.investmentPrivate
            + (runSimulation c).outputs.cofinancingTotal := by
  constructor
  · intro fids c _
    rfl
  · intro c
    have h : (runSimulation c).outputs.investmentPrivate
        = (runSimulation c).outputs.investmentTotal - (runSimulation c).outputs.cofinancingTotal := rfl
    rw [h]
    ring

/-- C10, witness: the theorem applied at 10 FIDs and the default controls. -/
theorem C10_witness :
    ((0:ℚ) ≤ 10 ∧
        (calculateInvestmentMobilized 10 defaultControls).privateCapital
          = (calculateInvestmentMobilized 10 defaultControls).total
            - (calculateInvestmentMobilized 10 defaultControls).govCofinancing) ∧
      (runSimulation defaultControls).outputs.investmentTotal
        = (runSimulation defaultControls).outputs.investmentPrivate
          + (runSimulation defaultControls).outputs.cofinancingTotal :=
  ⟨⟨by norm_num, C10_investment_identity.1 10 defaultControls (by norm_num)⟩,
    C10_investment_identity.2 defaultControls⟩

end Chad2030
